import Mathlib

/-!
Verification of the `0047_3_0_0_add_dag_versioning` schema migration
(`airflow/migrations/versions/0047_3_0_0_add_dag_versioning.py`).

The migration is shallowly embedded: table schemas (columns, primary key,
foreign keys, unique constraints, indexes) are explicit data, and the database
state carries one row store per table the migration touches (`dag`,
`dag_code`, `serialized_dag`, `dag_version`, `task_instance`,
`task_instance_history`, `dag_run`).  Alembic operations become functions
`DB → Option DB` that fail exactly where the database engine would reject the
DDL (missing table/column/constraint, adding a NOT NULL column without a
server default to a non-empty table).  `ON DELETE CASCADE` is modelled by
iterating a wave that removes every row whose cascading foreign-key value no
longer matches a row of the referenced table, until a fixpoint is reached.
-/

/-- An SQL value, as far as this migration can observe one.  UUIDs, hashes and
other strings are all `str`; `null` is the SQL NULL. -/
inductive Value
  | null
  | int (i : Int)
  | str (s : String)
  deriving DecidableEq, Repr

/-- A row is a finite assignment of column names to values; columns absent
from the list read as NULL. -/
abbrev Row := List (String × Value)

/-- The SQL column types occurring in this migration.  `stringT n` is
`sa.String(length=n)`; MySQL type variants (MEDIUMTEXT) are identified with
their base type. -/
inductive ColType
  | uuid
  | integer
  | bigint
  | stringT (n : Nat)
  | text
  | utcDateTime
  | jsonField
  | largeBinary
  deriving DecidableEq, Repr

structure Column where
  name : String
  type : ColType
  nullable : Bool
  deriving DecidableEq, Repr

/-- A foreign-key constraint.  `onDeleteCascade` records `ondelete="CASCADE"`. -/
structure FK where
  name : String
  cols : List String
  refTable : String
  refCols : List String
  onDeleteCascade : Bool
  deriving DecidableEq, Repr

structure UniqueC where
  name : String
  cols : List String
  deriving DecidableEq, Repr

structure IndexDef where
  name : String
  cols : List String
  unique : Bool
  deriving DecidableEq, Repr

structure Table where
  name : String
  columns : List Column
  pk : List String
  fks : List FK
  uniques : List UniqueC
  indexes : List IndexDef
  deriving DecidableEq, Repr

/-- The database fragment this migration touches: the list of live table
schemas, plus one row store per table name the migration can reference. -/
structure DB where
  tables : List Table
  dagRows : List Row
  dagCodeRows : List Row
  serializedRows : List Row
  dagVersionRows : List Row
  tiRows : List Row
  tihRows : List Row
  dagRunRows : List Row
  deriving DecidableEq, Repr

def DB.findTable (db : DB) (n : String) : Option Table :=
  db.tables.find? (fun t => t.name == n)

def DB.rowsOf (db : DB) (n : String) : List Row :=
  if n == "dag" then db.dagRows
  else if n == "dag_code" then db.dagCodeRows
  else if n == "serialized_dag" then db.serializedRows
  else if n == "dag_version" then db.dagVersionRows
  else if n == "task_instance" then db.tiRows
  else if n == "task_instance_history" then db.tihRows
  else if n == "dag_run" then db.dagRunRows
  else []

def DB.setRows (db : DB) (n : String) (rs : List Row) : DB :=
  if n == "dag" then { db with dagRows := rs }
  else if n == "dag_code" then { db with dagCodeRows := rs }
  else if n == "serialized_dag" then { db with serializedRows := rs }
  else if n == "dag_version" then { db with dagVersionRows := rs }
  else if n == "task_instance" then { db with tiRows := rs }
  else if n == "task_instance_history" then { db with tihRows := rs }
  else if n == "dag_run" then { db with dagRunRows := rs }
  else db

def DB.mapRows (db : DB) (n : String) (f : List Row → List Row) : DB :=
  db.setRows n (f (db.rowsOf n))

/-- Read column `c` of row `r`; a missing column reads as NULL. -/
def getVal (r : Row) (c : String) : Value :=
  match r.find? (fun p => p.1 == c) with
  | some p => p.2
  | none => Value.null

/-- Remove column `n` from a row (used when a column is dropped). -/
def eraseField (n : String) (r : Row) : Row :=
  r.filter (fun p => !(p.1 == n))

/-- A single-column foreign key of row `r` is satisfied when its value is NULL
or matches the referenced column of some row of the referenced table.
Multi-column foreign keys do not occur in this migration. -/
def fkSatisfied (db : DB) (fk : FK) (r : Row) : Bool :=
  match fk.cols, fk.refCols with
  | [c], [rc] =>
      getVal r c == Value.null
        || (db.rowsOf fk.refTable).any (fun r2 => getVal r2 rc == getVal r c)
  | _, _ => true

/-- A row survives a cascade wave when every cascading foreign key of its
table is still satisfied. -/
def rowAlive (db : DB) (t : Table) (r : Row) : Bool :=
  t.fks.all (fun fk => !fk.onDeleteCascade || fkSatisfied db fk r)

def rowAliveIn (db : DB) (n : String) (r : Row) : Bool :=
  match db.findTable n with
  | some t => rowAlive db t r
  | none => true

/-- One cascade wave: simultaneously drop, from every row store, the rows
whose cascading foreign keys are no longer satisfied in the current state. -/
def wave (db : DB) : DB :=
  { db with
    dagRows := db.dagRows.filter (rowAliveIn db "dag")
    dagCodeRows := db.dagCodeRows.filter (rowAliveIn db "dag_code")
    serializedRows := db.serializedRows.filter (rowAliveIn db "serialized_dag")
    dagVersionRows := db.dagVersionRows.filter (rowAliveIn db "dag_version")
    tiRows := db.tiRows.filter (rowAliveIn db "task_instance")
    tihRows := db.tihRows.filter (rowAliveIn db "task_instance_history")
    dagRunRows := db.dagRunRows.filter (rowAliveIn db "dag_run") }

def totalRows (db : DB) : Nat :=
  db.dagRows.length + db.dagCodeRows.length + db.serializedRows.length
    + db.dagVersionRows.length + db.tiRows.length + db.tihRows.length
    + db.dagRunRows.length

/-- Iterate cascade waves; with fuel at least `totalRows` the result is a
fixpoint of `wave`. -/
def propagate : Nat → DB → DB
  | 0, db => db
  | n + 1, db => propagate n (wave db)

/-- `DELETE FROM n` (no WHERE clause), with ON DELETE CASCADE propagation. -/
def execDeleteAll (db : DB) (n : String) : DB :=
  let db1 := db.setRows n []
  propagate (totalRows db1 + 1) db1

/-- `DELETE FROM n WHERE p`, with ON DELETE CASCADE propagation. -/
def execDeleteWhere (db : DB) (n : String) (p : Row → Bool) : DB :=
  let db1 := db.mapRows n (List.filter (fun r => !p r))
  propagate (totalRows db1 + 1) db1

def replaceTable (db : DB) (n : String) (t2 : Table) : DB :=
  { db with tables := db.tables.map (fun u => if u.name == n then t2 else u) }

/-- Alter the schema of table `n`, failing if the table does not exist or the
alteration itself fails. -/
def alterT (db : DB) (n : String) (f : Table → Option Table) : Option DB :=
  match db.findTable n with
  | none => none
  | some t =>
    match f t with
    | none => none
    | some t2 => some (replaceTable db n t2)

/-- `op.create_table`: fails if a table of that name already exists. -/
def createTable (db : DB) (t : Table) : Option DB :=
  if (db.findTable t.name).isSome then none
  else some { db.setRows t.name [] with tables := db.tables ++ [t] }

/-- `op.drop_table`: fails if the table does not exist. -/
def dropTable (db : DB) (n : String) : Option DB :=
  if (db.findTable n).isSome then
    some { db.setRows n [] with tables := db.tables.filter (fun t => !(t.name == n)) }
  else none

/-- `batch_op.drop_constraint(..., type_="primary")`. -/
def dropPrimaryKey (db : DB) (n : String) : Option DB :=
  alterT db n (fun t => if t.pk.isEmpty then none else some { t with pk := [] })

/-- `batch_op.create_primary_key`: the table must not already have a primary
key and the key columns must exist. -/
def createPrimaryKey (db : DB) (n : String) (cols : List String) : Option DB :=
  alterT db n (fun t =>
    if t.pk.isEmpty && cols.all (fun c => t.columns.any (fun c2 => c2.name == c)) then
      some { t with pk := cols }
    else none)

def insertColBefore (cs : List Column) (c : Column) (b : String) : List Column :=
  match cs with
  | [] => [c]
  | c2 :: rest => if c2.name == b then c :: c2 :: rest else c2 :: insertColBefore rest c b

/-- `batch_op.add_column`: the column name must be fresh; adding a NOT NULL
column (none of the added columns carries a server-side default) fails when
the table already holds rows.  `before` models `insert_before`. -/
def addColumn (db : DB) (n : String) (c : Column) (before : Option String) : Option DB :=
  match db.findTable n with
  | none => none
  | some t =>
    if t.columns.all (fun c2 => !(c2.name == c.name))
        && (c.nullable || (db.rowsOf n).isEmpty) then
      let cols :=
        match before with
        | some b => insertColBefore t.columns c b
        | none => t.columns ++ [c]
      some (replaceTable db n { t with columns := cols })
    else none

/-- `batch_op.drop_column`: dropping a column also drops the primary key,
foreign keys, unique constraints and indexes that mention it, and erases the
column from every stored row. -/
def dropColumn (db : DB) (n cname : String) : Option DB :=
  match db.findTable n with
  | none => none
  | some t =>
    if t.columns.any (fun c => c.name == cname) then
      let t2 : Table :=
        { t with
          columns := t.columns.filter (fun c => !(c.name == cname))
          pk := if t.pk.any (fun p => p == cname) then [] else t.pk
          fks := t.fks.filter (fun fk => !(fk.cols.any (fun p => p == cname)))
          uniques := t.uniques.filter (fun u => !(u.cols.any (fun p => p == cname)))
          indexes := t.indexes.filter (fun i => !(i.cols.any (fun p => p == cname))) }
      some ((replaceTable db n t2).mapRows n (List.map (eraseField cname)))
    else none

/-- `batch_op.create_foreign_key`: the constraint name must be fresh and the
referenced table must exist. -/
def createForeignKey (db : DB) (n : String) (fk : FK) : Option DB :=
  if (db.findTable fk.refTable).isSome then
    alterT db n (fun t =>
      if t.fks.all (fun fk2 => !(fk2.name == fk.name)) then
        some { t with fks := t.fks ++ [fk] }
      else none)
  else none

/-- `batch_op.drop_constraint(..., type_="foreignkey")`. -/
def dropConstraintFK (db : DB) (n cname : String) : Option DB :=
  alterT db n (fun t =>
    if t.fks.any (fun fk => fk.name == cname) then
      some { t with fks := t.fks.filter (fun fk => !(fk.name == cname)) }
    else none)

/-- `batch_op.create_unique_constraint`. -/
def createUniqueConstraint (db : DB) (n : String) (u : UniqueC) : Option DB :=
  alterT db n (fun t =>
    if t.uniques.all (fun u2 => !(u2.name == u.name)) then
      some { t with uniques := t.uniques ++ [u] }
    else none)

/-- `batch_op.create_index`. -/
def createIndexOp (db : DB) (n : String) (i : IndexDef) : Option DB :=
  alterT db n (fun t =>
    if t.indexes.all (fun i2 => !(i2.name == i.name)) then
      some { t with indexes := t.indexes ++ [i] }
    else none)

/-- `batch_op.drop_index`. -/
def dropIndexOp (db : DB) (n iname : String) : Option DB :=
  alterT db n (fun t =>
    if t.indexes.any (fun i => i.name == iname) then
      some { t with indexes := t.indexes.filter (fun i => !(i.name == iname)) }
    else none)

/-- `batch_op.alter_column(..., nullable=b)`: tightening to NOT NULL fails if
a stored row holds NULL in that column. -/
def alterColumnNullable (db : DB) (n cname : String) (b : Bool) : Option DB :=
  match db.findTable n with
  | none => none
  | some t =>
    if t.columns.any (fun c => c.name == cname)
        && (b || (db.rowsOf n).all (fun r => !(getVal r cname == Value.null))) then
      some (replaceTable db n
        { t with columns := t.columns.map (fun c =>
            if c.name == cname then { c with nullable := b } else c) })
    else none

/-- Two rows collide on a unique constraint when they agree on all of its
columns with non-NULL values (SQL unique constraints ignore NULLs). -/
def uniqueConflict (r2 r : Row) (cols : List String) : Bool :=
  !cols.isEmpty
    && cols.all (fun c => getVal r2 c == getVal r c && !(getVal r c == Value.null))

/-- `INSERT INTO n VALUES r`: enforces NOT NULL, primary-key uniqueness,
unique constraints and foreign keys; a violated constraint rejects the row. -/
def insertRow (db : DB) (n : String) (r : Row) : Option DB :=
  match db.findTable n with
  | none => none
  | some t =>
    if t.columns.all (fun c => c.nullable || !(getVal r c.name == Value.null))
        && (db.rowsOf n).all (fun r2 => !uniqueConflict r2 r t.pk)
        && t.uniques.all (fun u => (db.rowsOf n).all (fun r2 => !uniqueConflict r2 r u.cols))
        && t.fks.all (fun fk => fkSatisfied db fk r) then
      some (db.setRows n (db.rowsOf n ++ [r]))
    else none

/-! ### The pre-migration tables

`old_dagcode_table` and `old_serialized_table` are transcribed from the
source (`StringID`/`ID_LEN` is `String(250)`, `UtcDateTime` a timestamp).
The migration file itself does not describe `dag`, `task_instance`,
`task_instance_history` or `dag_run`; only the parts this migration touches
matter, so those carry a minimal schema. -/

def old_dagcode_table : Table :=
  { name := "dag_code"
    columns :=
      [ ⟨"fileloc_hash", ColType.bigint, false⟩
      , ⟨"fileloc", ColType.stringT 2000, false⟩
      , ⟨"last_updated", ColType.utcDateTime, false⟩
      , ⟨"source_code", ColType.text, false⟩ ]
    pk := ["fileloc_hash"]
    fks := []
    uniques := []
    indexes := [] }

def old_serialized_table : Table :=
  { name := "serialized_dag"
    columns :=
      [ ⟨"dag_id", ColType.stringT 250, false⟩
      , ⟨"fileloc", ColType.stringT 2000, false⟩
      , ⟨"fileloc_hash", ColType.bigint, false⟩
      , ⟨"data", ColType.jsonField, true⟩
      , ⟨"data_compressed", ColType.largeBinary, true⟩
      , ⟨"dag_hash", ColType.stringT 32, false⟩
      , ⟨"last_updated", ColType.utcDateTime, false⟩
      , ⟨"processor_subdir", ColType.stringT 2000, true⟩ ]
    pk := ["dag_id"]
    fks := []
    uniques := []
    indexes := [⟨"idx_fileloc_hash", ["fileloc_hash"], false⟩] }

/-- Modelled from the spec: the Definition table (`dag`), parent of all
versions, keyed by its stable string id.  It is referenced by the
`dag_version.dag_id` foreign key but not itself defined in the migration. -/
def dag_table : Table :=
  { name := "dag"
    columns := [⟨"dag_id", ColType.stringT 250, false⟩]
    pk := ["dag_id"]
    fks := []
    uniques := []
    indexes := [] }

/-- Modelled from the spec: the live execution-record table
(`task_instance`), reduced to its natural key; this migration only adds a
versioning column and foreign key to it. -/
def task_instance_table : Table :=
  { name := "task_instance"
    columns :=
      [ ⟨"task_id", ColType.stringT 250, false⟩
      , ⟨"dag_id", ColType.stringT 250, false⟩
      , ⟨"run_id", ColType.stringT 250, false⟩ ]
    pk := ["task_id", "dag_id", "run_id"]
    fks := []
    uniques := []
    indexes := [] }

/-- Modelled from the spec: the historical execution-record table
(`task_instance_history`); this migration only adds a column to it. -/
def task_instance_history_table : Table :=
  { name := "task_instance_history"
    columns :=
      [ ⟨"id", ColType.integer, false⟩
      , ⟨"task_id", ColType.stringT 250, false⟩
      , ⟨"dag_id", ColType.stringT 250, false⟩
      , ⟨"run_id", ColType.stringT 250, false⟩ ]
    pk := ["id"]
    fks := []
    uniques := []
    indexes := [] }

/-- Modelled from the spec: the run-record table (`dag_run`) with the
single-hash integrity column `dag_hash` (`String(32)`, nullable) that this
migration removes. -/
def dag_run_table : Table :=
  { name := "dag_run"
    columns :=
      [ ⟨"id", ColType.integer, false⟩
      , ⟨"dag_id", ColType.stringT 250, false⟩
      , ⟨"dag_hash", ColType.stringT 32, true⟩ ]
    pk := ["id"]
    fks := []
    uniques := []
    indexes := [] }

/-- The `dag_version` table created by `upgrade()`, transcribed from the
source. -/
def dag_version_table : Table :=
  { name := "dag_version"
    columns :=
      [ ⟨"id", ColType.uuid, false⟩
      , ⟨"version_number", ColType.integer, false⟩
      , ⟨"dag_id", ColType.stringT 250, false⟩
      , ⟨"created_at", ColType.utcDateTime, false⟩
      , ⟨"last_updated", ColType.utcDateTime, false⟩ ]
    pk := ["id"]
    fks := [⟨"dag_version_dag_id_fkey", ["dag_id"], "dag", ["dag_id"], true⟩]
    uniques := [⟨"dag_id_v_name_v_number_unique_constraint", ["dag_id", "version_number"]⟩]
    indexes := [] }

/-- A pre-migration database: the six pre-existing tables with the given row
stores (`dag_version` does not exist yet). -/
def preDB (dg dc sd ti tih dr : List Row) : DB :=
  { tables :=
      [ dag_table, old_dagcode_table, old_serialized_table
      , task_instance_table, task_instance_history_table, dag_run_table ]
    dagRows := dg
    dagCodeRows := dc
    serializedRows := sd
    dagVersionRows := []
    tiRows := ti
    tihRows := tih
    dagRunRows := dr }

/-! ### The migration itself, transcribed statement by statement. -/

/-- `_delete_serdag_and_code`: `DELETE FROM serialized_dag` then
`DELETE FROM dag_code`. -/
def delete_serdag_and_code (db : DB) : DB :=
  execDeleteAll (execDeleteAll db "serialized_dag") "dag_code"

/-- The `with op.batch_alter_table("dag_code", ...)` block of `upgrade()`,
in source order. -/
def upgradeDagCodeOps (db : DB) : Option DB := do
  let db ← dropPrimaryKey db "dag_code"
  let db ← addColumn db "dag_code" ⟨"id", ColType.uuid, false⟩ (some "fileloc_hash")
  let db ← createPrimaryKey db "dag_code" ["id"]
  let db ← addColumn db "dag_code" ⟨"dag_version_id", ColType.uuid, false⟩ none
  let db ← createForeignKey db "dag_code"
    ⟨"dag_code_dag_version_id_fkey", ["dag_version_id"], "dag_version", ["id"], true⟩
  let db ← createUniqueConstraint db "dag_code" ⟨"dag_code_dag_version_id_uq", ["dag_version_id"]⟩
  let db ← addColumn db "dag_code" ⟨"source_code_hash", ColType.stringT 32, false⟩ none
  let db ← dropColumn db "dag_code" "fileloc_hash"
  let db ← addColumn db "dag_code" ⟨"dag_id", ColType.stringT 250, false⟩ none
  let db ← addColumn db "dag_code" ⟨"created_at", ColType.utcDateTime, false⟩ none
  alterColumnNullable db "dag_code" "last_updated" false

/-- The `with op.batch_alter_table("serialized_dag", ...)` block of
`upgrade()`, in source order. -/
def upgradeSerializedOps (db : DB) : Option DB := do
  let db ← dropPrimaryKey db "serialized_dag"
  let db ← addColumn db "serialized_dag" ⟨"id", ColType.uuid, false⟩ none
  let db ← dropIndexOp db "serialized_dag" "idx_fileloc_hash"
  let db ← dropColumn db "serialized_dag" "fileloc_hash"
  let db ← dropColumn db "serialized_dag" "fileloc"
  let db ← createPrimaryKey db "serialized_dag" ["id"]
  let db ← addColumn db "serialized_dag" ⟨"dag_version_id", ColType.uuid, false⟩ none
  let db ← createForeignKey db "serialized_dag"
    ⟨"serialized_dag_dag_version_id_fkey", ["dag_version_id"], "dag_version", ["id"], true⟩
  let db ← createUniqueConstraint db "serialized_dag"
    ⟨"serialized_dag_dag_version_id_uq", ["dag_version_id"]⟩
  addColumn db "serialized_dag" ⟨"created_at", ColType.utcDateTime, false⟩ none

/-- The `task_instance`, `task_instance_history` and `dag_run` blocks of
`upgrade()`: only `task_instance` receives a foreign key. -/
def upgradeExecOps (db : DB) : Option DB := do
  let db ← addColumn db "task_instance" ⟨"dag_version_id", ColType.uuid, true⟩ none
  let db ← createForeignKey db "task_instance"
    ⟨"task_instance_dag_version_id_fkey", ["dag_version_id"], "dag_version", ["id"], true⟩
  let db ← addColumn db "task_instance_history" ⟨"dag_version_id", ColType.uuid, true⟩ none
  dropColumn db "dag_run" "dag_hash"

/-- `upgrade()`: purge, create `dag_version`, rewrite `dag_code` and
`serialized_dag`, extend the execution-record tables, drop
`dag_run.dag_hash`.  The operations appear in source order. -/
def upgrade (db : DB) : Option DB :=
  Option.bind (createTable (delete_serdag_and_code db) dag_version_table) (fun db1 =>
    Option.bind (upgradeDagCodeOps db1) (fun db2 =>
      Option.bind (upgradeSerializedOps db2) upgradeExecOps))

/-- The `task_instance_history` and `task_instance` blocks of
`downgrade()`, in source order. -/
def downgradeExecOps (db : DB) : Option DB := do
  let db ← dropColumn db "task_instance_history" "dag_version_id"
  let db ← dropConstraintFK db "task_instance" "task_instance_dag_version_id_fkey"
  dropColumn db "task_instance" "dag_version_id"

/-- The `dag_code` block of `downgrade()`, in source order. -/
def downgradeDagCodeOps (db : DB) : Option DB := do
  let db ← dropColumn db "dag_code" "id"
  let db ← dropConstraintFK db "dag_code" "dag_code_dag_version_id_fkey"
  let db ← dropColumn db "dag_code" "dag_version_id"
  let db ← addColumn db "dag_code" ⟨"fileloc_hash", ColType.bigint, false⟩ none
  let db ← createPrimaryKey db "dag_code" ["fileloc_hash"]
  let db ← dropColumn db "dag_code" "source_code_hash"
  let db ← dropColumn db "dag_code" "dag_id"
  dropColumn db "dag_code" "created_at"

/-- The `serialized_dag` block of `downgrade()`, in source order. -/
def downgradeSerializedOps (db : DB) : Option DB := do
  let db ← dropColumn db "serialized_dag" "id"
  let db ← addColumn db "serialized_dag" ⟨"fileloc", ColType.stringT 2000, false⟩ none
  let db ← addColumn db "serialized_dag" ⟨"fileloc_hash", ColType.bigint, false⟩ none
  let db ← createIndexOp db "serialized_dag" ⟨"idx_fileloc_hash", ["fileloc_hash"], false⟩
  let db ← createPrimaryKey db "serialized_dag" ["dag_id"]
  let db ← dropConstraintFK db "serialized_dag" "serialized_dag_dag_version_id_fkey"
  let db ← dropColumn db "serialized_dag" "dag_version_id"
  dropColumn db "serialized_dag" "created_at"

/-- The schema operations of `downgrade()` after its initial
`DELETE FROM dag_version`, in source order. -/
def downgradeRest (db : DB) : Option DB :=
  Option.bind (downgradeExecOps db) (fun db1 =>
    Option.bind (downgradeDagCodeOps db1) (fun db2 =>
      Option.bind (downgradeSerializedOps db2) (fun db3 =>
        Option.bind (addColumn db3 "dag_run" ⟨"dag_hash", ColType.stringT 32, true⟩ none)
          (fun db4 => dropTable db4 "dag_version"))))

/-- `downgrade()`: `DELETE FROM dag_version` (cascading), then the schema
operations. -/
def downgrade (db : DB) : Option DB :=
  downgradeRest (execDeleteAll db "dag_version")

/-! ### The post-upgrade schema, as computed by `upgrade` -/

/-- `dag_code` after `upgrade()`. -/
def dag_code_post : Table :=
  { name := "dag_code"
    columns :=
      [ ⟨"id", ColType.uuid, false⟩
      , ⟨"fileloc", ColType.stringT 2000, false⟩
      , ⟨"last_updated", ColType.utcDateTime, false⟩
      , ⟨"source_code", ColType.text, false⟩
      , ⟨"dag_version_id", ColType.uuid, false⟩
      , ⟨"source_code_hash", ColType.stringT 32, false⟩
      , ⟨"dag_id", ColType.stringT 250, false⟩
      , ⟨"created_at", ColType.utcDateTime, false⟩ ]
    pk := ["id"]
    fks := [⟨"dag_code_dag_version_id_fkey", ["dag_version_id"], "dag_version", ["id"], true⟩]
    uniques := [⟨"dag_code_dag_version_id_uq", ["dag_version_id"]⟩]
    indexes := [] }

/-- `serialized_dag` after `upgrade()`. -/
def serialized_dag_post : Table :=
  { name := "serialized_dag"
    columns :=
      [ ⟨"dag_id", ColType.stringT 250, false⟩
      , ⟨"data", ColType.jsonField, true⟩
      , ⟨"data_compressed", ColType.largeBinary, true⟩
      , ⟨"dag_hash", ColType.stringT 32, false⟩
      , ⟨"last_updated", ColType.utcDateTime, false⟩
      , ⟨"processor_subdir", ColType.stringT 2000, true⟩
      , ⟨"id", ColType.uuid, false⟩
      , ⟨"dag_version_id", ColType.uuid, false⟩
      , ⟨"created_at", ColType.utcDateTime, false⟩ ]
    pk := ["id"]
    fks := [⟨"serialized_dag_dag_version_id_fkey", ["dag_version_id"], "dag_version", ["id"], true⟩]
    uniques := [⟨"serialized_dag_dag_version_id_uq", ["dag_version_id"]⟩]
    indexes := [] }

/-- `task_instance` after `upgrade()`: new nullable `dag_version_id` column
and a cascading foreign key. -/
def task_instance_post : Table :=
  { name := "task_instance"
    columns :=
      [ ⟨"task_id", ColType.stringT 250, false⟩
      , ⟨"dag_id", ColType.stringT 250, false⟩
      , ⟨"run_id", ColType.stringT 250, false⟩
      , ⟨"dag_version_id", ColType.uuid, true⟩ ]
    pk := ["task_id", "dag_id", "run_id"]
    fks := [⟨"task_instance_dag_version_id_fkey", ["dag_version_id"], "dag_version", ["id"], true⟩]
    uniques := []
    indexes := [] }

/-- `task_instance_history` after `upgrade()`: new nullable `dag_version_id`
column, and no foreign key. -/
def task_instance_history_post : Table :=
  { name := "task_instance_history"
    columns :=
      [ ⟨"id", ColType.integer, false⟩
      , ⟨"task_id", ColType.stringT 250, false⟩
      , ⟨"dag_id", ColType.stringT 250, false⟩
      , ⟨"run_id", ColType.stringT 250, false⟩
      , ⟨"dag_version_id", ColType.uuid, true⟩ ]
    pk := ["id"]
    fks := []
    uniques := []
    indexes := [] }

/-- `dag_run` after `upgrade()`: `dag_hash` is gone. -/
def dag_run_post : Table :=
  { name := "dag_run"
    columns := [⟨"id", ColType.integer, false⟩, ⟨"dag_id", ColType.stringT 250, false⟩]
    pk := ["id"]
    fks := []
    uniques := []
    indexes := [] }

def postTables : List Table :=
  [ dag_table, dag_code_post, serialized_dag_post, task_instance_post
  , task_instance_history_post, dag_run_post, dag_version_table ]

/-- A post-upgrade database with the given row stores. -/
def postDB (dg cs ss vs ti tih dr : List Row) : DB :=
  { tables := postTables
    dagRows := dg
    dagCodeRows := cs
    serializedRows := ss
    dagVersionRows := vs
    tiRows := ti
    tihRows := tih
    dagRunRows := dr }

/-- `dag_code` after `downgrade()`: same column set and primary key as
`old_dagcode_table`, with the re-added `fileloc_hash` at the end. -/
def dag_code_down : Table :=
  { name := "dag_code"
    columns :=
      [ ⟨"fileloc", ColType.stringT 2000, false⟩
      , ⟨"last_updated", ColType.utcDateTime, false⟩
      , ⟨"source_code", ColType.text, false⟩
      , ⟨"fileloc_hash", ColType.bigint, false⟩ ]
    pk := ["fileloc_hash"]
    fks := []
    uniques := []
    indexes := [] }

/-- `serialized_dag` after `downgrade()`: same column set, primary key and
index as `old_serialized_table`, with the re-added columns at the end. -/
def serialized_dag_down : Table :=
  { name := "serialized_dag"
    columns :=
      [ ⟨"dag_id", ColType.stringT 250, false⟩
      , ⟨"data", ColType.jsonField, true⟩
      , ⟨"data_compressed", ColType.largeBinary, true⟩
      , ⟨"dag_hash", ColType.stringT 32, false⟩
      , ⟨"last_updated", ColType.utcDateTime, false⟩
      , ⟨"processor_subdir", ColType.stringT 2000, true⟩
      , ⟨"fileloc", ColType.stringT 2000, false⟩
      , ⟨"fileloc_hash", ColType.bigint, false⟩ ]
    pk := ["dag_id"]
    fks := []
    uniques := []
    indexes := [⟨"idx_fileloc_hash", ["fileloc_hash"], false⟩] }

def downTables : List Table :=
  [ dag_table, dag_code_down, serialized_dag_down, task_instance_table
  , task_instance_history_table, dag_run_table ]

/-! ### Basic facts about cascade propagation -/

theorem obind_some (a : DB) (f : DB → Option DB) : Option.bind (some a) f = f a := rfl

theorem propagate_of_fix {db : DB} (h : wave db = db) : ∀ fuel, propagate fuel db = db
  | 0 => rfl
  | n + 1 => by
    show propagate n (wave db) = db
    rw [h]
    exact propagate_of_fix h n

theorem rowAliveIn_of_no_cascade (db : DB) (n : String)
    (h : ∀ t ∈ db.tables, ∀ fk ∈ t.fks, fk.onDeleteCascade = false) (r : Row) :
    rowAliveIn db n r = true := by
  unfold rowAliveIn
  cases hf : db.findTable n with
  | none => rfl
  | some t =>
    have ht : t ∈ db.tables := List.mem_of_find?_eq_some hf
    unfold rowAlive
    rw [List.all_eq_true]
    intro fk hfk
    rw [h t ht fk hfk]
    rfl

theorem wave_of_no_cascade (db : DB)
    (h : ∀ t ∈ db.tables, ∀ fk ∈ t.fks, fk.onDeleteCascade = false) : wave db = db := by
  obtain ⟨tb, a1, a2, a3, a4, a5, a6, a7⟩ := db
  simp only [wave]
  congr 1 <;> exact List.filter_eq_self.mpr (fun r _ => rowAliveIn_of_no_cascade _ _ h r)

theorem setRows_tables (db : DB) (n : String) (rs : List Row) :
    (db.setRows n rs).tables = db.tables := by
  unfold DB.setRows
  repeat' split
  all_goals rfl

theorem execDeleteAll_of_no_cascade (db : DB) (n : String)
    (h : ∀ t ∈ db.tables, ∀ fk ∈ t.fks, fk.onDeleteCascade = false) :
    execDeleteAll db n = db.setRows n [] := by
  show propagate (totalRows (db.setRows n []) + 1) (db.setRows n []) = db.setRows n []
  apply propagate_of_fix
  apply wave_of_no_cascade
  rw [setRows_tables]
  exact h

theorem preDB_tables (dg dc sd ti tih dr : List Row) :
    (preDB dg dc sd ti tih dr).tables =
      [ dag_table, old_dagcode_table, old_serialized_table
      , task_instance_table, task_instance_history_table, dag_run_table ] := rfl

/-- The purge step empties `serialized_dag` and `dag_code` and touches
nothing else: the pre-migration schema has no cascading foreign keys. -/
theorem purge_preDB (dg dc sd ti tih dr : List Row) :
    delete_serdag_and_code (preDB dg dc sd ti tih dr) = preDB dg [] [] ti tih dr := by
  unfold delete_serdag_and_code
  rw [execDeleteAll_of_no_cascade (preDB dg dc sd ti tih dr) "serialized_dag"
    (by rw [preDB_tables]; decide)]
  rw [show (preDB dg dc sd ti tih dr).setRows "serialized_dag" [] = preDB dg dc [] ti tih dr
    from rfl]
  rw [execDeleteAll_of_no_cascade (preDB dg dc [] ti tih dr) "dag_code"
    (by rw [preDB_tables]; decide)]
  rfl

/-! ### Stepwise computation of `upgrade` on a pre-migration database -/

def upTables0 : List Table :=
  [ dag_table, old_dagcode_table, old_serialized_table
  , task_instance_table, task_instance_history_table, dag_run_table, dag_version_table ]

def upTables1 : List Table :=
  [ dag_table, dag_code_post, old_serialized_table
  , task_instance_table, task_instance_history_table, dag_run_table, dag_version_table ]

def upTables2 : List Table :=
  [ dag_table, dag_code_post, serialized_dag_post
  , task_instance_table, task_instance_history_table, dag_run_table, dag_version_table ]

theorem upgrade_createTable_spec (dg ti tih dr : List Row) :
    createTable (preDB dg [] [] ti tih dr) dag_version_table
      = some ⟨upTables0, dg, [], [], [], ti, tih, dr⟩ := rfl

theorem upgradeDagCodeOps_spec (dg ti tih dr : List Row) :
    upgradeDagCodeOps ⟨upTables0, dg, [], [], [], ti, tih, dr⟩
      = some ⟨upTables1, dg, [], [], [], ti, tih, dr⟩ := rfl

theorem upgradeSerializedOps_spec (dg ti tih dr : List Row) :
    upgradeSerializedOps ⟨upTables1, dg, [], [], [], ti, tih, dr⟩
      = some ⟨upTables2, dg, [], [], [], ti, tih, dr⟩ := rfl

theorem upgradeExecOps_spec (dg ti tih dr : List Row) :
    upgradeExecOps ⟨upTables2, dg, [], [], [], ti, tih, dr⟩
      = some ⟨postTables, dg, [], [], [], ti, tih, dr.map (eraseField "dag_hash")⟩ := rfl

/-- `upgrade` on any pre-migration database: it always succeeds, produces
the post-upgrade schema, and leaves both artifact tables and the new
`dag_version` table empty. -/
theorem upgrade_preDB (dg dc sd ti tih dr : List Row) :
    upgrade (preDB dg dc sd ti tih dr)
      = some (postDB dg [] [] [] ti tih (dr.map (eraseField "dag_hash"))) := by
  unfold upgrade
  rw [purge_preDB]
  rw [upgrade_createTable_spec, obind_some, upgradeDagCodeOps_spec, obind_some,
    upgradeSerializedOps_spec, obind_some, upgradeExecOps_spec]
  rfl

/-! ### Stepwise computation of `downgradeRest` on a post-upgrade database -/

def dnTables1 : List Table :=
  [ dag_table, dag_code_post, serialized_dag_post, task_instance_table
  , task_instance_history_table, dag_run_post, dag_version_table ]

def dnTables2 : List Table :=
  [ dag_table, dag_code_down, serialized_dag_post, task_instance_table
  , task_instance_history_table, dag_run_post, dag_version_table ]

def dnTables3 : List Table :=
  [ dag_table, dag_code_down, serialized_dag_down, task_instance_table
  , task_instance_history_table, dag_run_post, dag_version_table ]

def dnTables4 : List Table :=
  [ dag_table, dag_code_down, serialized_dag_down, task_instance_table
  , task_instance_history_table, dag_run_table, dag_version_table ]

theorem downgradeExecOps_spec (dg dv ti tih dr : List Row) :
    downgradeExecOps ⟨postTables, dg, [], [], dv, ti, tih, dr⟩
      = some ⟨dnTables1, dg, [], [], dv, ti.map (eraseField "dag_version_id"),
          tih.map (eraseField "dag_version_id"), dr⟩ := rfl

theorem downgradeDagCodeOps_spec (dg dv ti tih dr : List Row) :
    downgradeDagCodeOps ⟨dnTables1, dg, [], [], dv, ti, tih, dr⟩
      = some ⟨dnTables2, dg, [], [], dv, ti, tih, dr⟩ := rfl

theorem downgradeSerializedOps_spec (dg dv ti tih dr : List Row) :
    downgradeSerializedOps ⟨dnTables2, dg, [], [], dv, ti, tih, dr⟩
      = some ⟨dnTables3, dg, [], [], dv, ti, tih, dr⟩ := rfl

theorem downgrade_dag_run_spec (dg dv ti tih dr : List Row) :
    addColumn ⟨dnTables3, dg, [], [], dv, ti, tih, dr⟩ "dag_run"
        ⟨"dag_hash", ColType.stringT 32, true⟩ none
      = some ⟨dnTables4, dg, [], [], dv, ti, tih, dr⟩ := rfl

theorem downgrade_dropTable_spec (dg dv ti tih dr : List Row) :
    dropTable ⟨dnTables4, dg, [], [], dv, ti, tih, dr⟩ "dag_version"
      = some ⟨downTables, dg, [], [], [], ti, tih, dr⟩ := rfl

/-- The schema phase of `downgrade` on a post-upgrade database whose two
artifact tables are already empty: it succeeds and restores the
pre-migration shape, with no artifact data. -/
theorem downgradeRest_spec (dg dv ti tih dr : List Row) :
    downgradeRest ⟨postTables, dg, [], [], dv, ti, tih, dr⟩
      = some ⟨downTables, dg, [], [], [], ti.map (eraseField "dag_version_id"),
          tih.map (eraseField "dag_version_id"), dr⟩ := by
  unfold downgradeRest
  rw [downgradeExecOps_spec, obind_some, downgradeDagCodeOps_spec, obind_some,
    downgradeSerializedOps_spec, obind_some, downgrade_dag_run_spec, obind_some,
    downgrade_dropTable_spec]

/-! ### Cascade propagation reaches a fixpoint -/

theorem wave_dagRows (db : DB) :
    (wave db).dagRows = db.dagRows.filter (rowAliveIn db "dag") := rfl

theorem wave_dagCodeRows (db : DB) :
    (wave db).dagCodeRows = db.dagCodeRows.filter (rowAliveIn db "dag_code") := rfl

theorem wave_serializedRows (db : DB) :
    (wave db).serializedRows = db.serializedRows.filter (rowAliveIn db "serialized_dag") := rfl

theorem wave_dagVersionRows (db : DB) :
    (wave db).dagVersionRows = db.dagVersionRows.filter (rowAliveIn db "dag_version") := rfl

theorem wave_tiRows (db : DB) :
    (wave db).tiRows = db.tiRows.filter (rowAliveIn db "task_instance") := rfl

theorem wave_tihRows (db : DB) :
    (wave db).tihRows = db.tihRows.filter (rowAliveIn db "task_instance_history") := rfl

theorem wave_dagRunRows (db : DB) :
    (wave db).dagRunRows = db.dagRunRows.filter (rowAliveIn db "dag_run") := rfl

theorem wave_eq_of_totalRows_eq (db : DB)
    (h : totalRows (wave db) = totalRows db) : wave db = db := by
  obtain ⟨tb, a1, a2, a3, a4, a5, a6, a7⟩ := db
  have h1 := List.length_filter_le (rowAliveIn (⟨tb, a1, a2, a3, a4, a5, a6, a7⟩ : DB) "dag") a1
  have h2 := List.length_filter_le
    (rowAliveIn (⟨tb, a1, a2, a3, a4, a5, a6, a7⟩ : DB) "dag_code") a2
  have h3 := List.length_filter_le
    (rowAliveIn (⟨tb, a1, a2, a3, a4, a5, a6, a7⟩ : DB) "serialized_dag") a3
  have h4 := List.length_filter_le
    (rowAliveIn (⟨tb, a1, a2, a3, a4, a5, a6, a7⟩ : DB) "dag_version") a4
  have h5 := List.length_filter_le
    (rowAliveIn (⟨tb, a1, a2, a3, a4, a5, a6, a7⟩ : DB) "task_instance") a5
  have h6 := List.length_filter_le
    (rowAliveIn (⟨tb, a1, a2, a3, a4, a5, a6, a7⟩ : DB) "task_instance_history") a6
  have h7 := List.length_filter_le
    (rowAliveIn (⟨tb, a1, a2, a3, a4, a5, a6, a7⟩ : DB) "dag_run") a7
  simp only [wave, totalRows] at h ⊢
  simp only [DB.mk.injEq]
  refine ⟨trivial, ?_, ?_, ?_, ?_, ?_, ?_, ?_⟩ <;>
    exact (List.filter_sublist _).eq_of_length (by omega)

theorem totalRows_wave_le (db : DB) : totalRows (wave db) ≤ totalRows db := by
  obtain ⟨tb, a1, a2, a3, a4, a5, a6, a7⟩ := db
  have h1 := List.length_filter_le (rowAliveIn (⟨tb, a1, a2, a3, a4, a5, a6, a7⟩ : DB) "dag") a1
  have h2 := List.length_filter_le
    (rowAliveIn (⟨tb, a1, a2, a3, a4, a5, a6, a7⟩ : DB) "dag_code") a2
  have h3 := List.length_filter_le
    (rowAliveIn (⟨tb, a1, a2, a3, a4, a5, a6, a7⟩ : DB) "serialized_dag") a3
  have h4 := List.length_filter_le
    (rowAliveIn (⟨tb, a1, a2, a3, a4, a5, a6, a7⟩ : DB) "dag_version") a4
  have h5 := List.length_filter_le
    (rowAliveIn (⟨tb, a1, a2, a3, a4, a5, a6, a7⟩ : DB) "task_instance") a5
  have h6 := List.length_filter_le
    (rowAliveIn (⟨tb, a1, a2, a3, a4, a5, a6, a7⟩ : DB) "task_instance_history") a6
  have h7 := List.length_filter_le
    (rowAliveIn (⟨tb, a1, a2, a3, a4, a5, a6, a7⟩ : DB) "dag_run") a7
  simp only [wave, totalRows]
  omega

/-- With fuel at least the number of stored rows, `propagate` reaches a
fixpoint of `wave`. -/
theorem wave_propagate : ∀ fuel : Nat, ∀ db : DB, totalRows db ≤ fuel →
    wave (propagate fuel db) = propagate fuel db := by
  intro fuel
  induction fuel with
  | zero =>
    intro db h
    have h0 : totalRows (wave db) = totalRows db := by
      have := totalRows_wave_le db
      omega
    exact wave_eq_of_totalRows_eq db h0
  | succ n ih =>
    intro db h
    by_cases hw : wave db = db
    · show wave (propagate n (wave db)) = propagate n (wave db)
      rw [hw, propagate_of_fix hw n]
      exact hw
    · have hlt : totalRows (wave db) < totalRows db := by
        have hle := totalRows_wave_le db
        rcases Nat.lt_or_ge (totalRows (wave db)) (totalRows db) with h1 | h1
        · exact h1
        · exact absurd (wave_eq_of_totalRows_eq db (Nat.le_antisymm hle h1)) hw
      exact ih (wave db) (by omega)

theorem execDeleteAll_fix (db : DB) (n : String) :
    wave (execDeleteAll db n) = execDeleteAll db n := by
  show wave (propagate (totalRows (db.setRows n []) + 1) (db.setRows n [])) = _
  exact wave_propagate _ _ (by omega)

theorem execDeleteWhere_fix (db : DB) (n : String) (p : Row → Bool) :
    wave (execDeleteWhere db n p) = execDeleteWhere db n p := by
  show wave (propagate (totalRows (db.mapRows n (List.filter (fun r => !p r))) + 1)
    (db.mapRows n (List.filter (fun r => !p r)))) = _
  exact wave_propagate _ _ (by omega)

theorem propagate_tables : ∀ fuel : Nat, ∀ db : DB,
    (propagate fuel db).tables = db.tables := by
  intro fuel
  induction fuel with
  | zero => intro db; rfl
  | succ n ih =>
    intro db
    show (propagate n (wave db)).tables = db.tables
    rw [ih (wave db)]
    rfl

theorem rowsOf_dag (db : DB) : db.rowsOf "dag" = db.dagRows := rfl

theorem rowsOf_dagVersion (db : DB) : db.rowsOf "dag_version" = db.dagVersionRows := rfl

theorem propagate_dagCodeRows_sublist : ∀ fuel : Nat, ∀ db : DB,
    List.Sublist (propagate fuel db).dagCodeRows db.dagCodeRows := by
  intro fuel
  induction fuel with
  | zero => intro db; exact List.Sublist.refl _
  | succ n ih =>
    intro db
    have h2 : List.Sublist (wave db).dagCodeRows db.dagCodeRows := by
      rw [wave_dagCodeRows]
      exact List.filter_sublist _
    exact (ih (wave db)).trans h2

theorem propagate_serializedRows_sublist : ∀ fuel : Nat, ∀ db : DB,
    List.Sublist (propagate fuel db).serializedRows db.serializedRows := by
  intro fuel
  induction fuel with
  | zero => intro db; exact List.Sublist.refl _
  | succ n ih =>
    intro db
    have h2 : List.Sublist (wave db).serializedRows db.serializedRows := by
      rw [wave_serializedRows]
      exact List.filter_sublist _
    exact (ih (wave db)).trans h2

theorem propagate_dagVersionRows_sublist : ∀ fuel : Nat, ∀ db : DB,
    List.Sublist (propagate fuel db).dagVersionRows db.dagVersionRows := by
  intro fuel
  induction fuel with
  | zero => intro db; exact List.Sublist.refl _
  | succ n ih =>
    intro db
    have h2 : List.Sublist (wave db).dagVersionRows db.dagVersionRows := by
      rw [wave_dagVersionRows]
      exact List.filter_sublist _
    exact (ih (wave db)).trans h2

theorem propagate_tiRows_sublist : ∀ fuel : Nat, ∀ db : DB,
    List.Sublist (propagate fuel db).tiRows db.tiRows := by
  intro fuel
  induction fuel with
  | zero => intro db; exact List.Sublist.refl _
  | succ n ih =>
    intro db
    have h2 : List.Sublist (wave db).tiRows db.tiRows := by
      rw [wave_tiRows]
      exact List.filter_sublist _
    exact (ih (wave db)).trans h2

theorem rowAliveIn_of_no_fks (db : DB) (n : String) (t : Table)
    (hf : db.findTable n = some t) (hfks : t.fks = []) (r : Row) :
    rowAliveIn db n r = true := by
  unfold rowAliveIn
  rw [hf]
  show rowAlive db t r = true
  unfold rowAlive
  rw [hfks]
  rfl

theorem findTable_post_dag (db : DB) (ht : db.tables = postTables) :
    db.findTable "dag" = some dag_table := by
  simp only [DB.findTable]
  rw [ht]
  rfl

theorem findTable_post_dagCode (db : DB) (ht : db.tables = postTables) :
    db.findTable "dag_code" = some dag_code_post := by
  simp only [DB.findTable]
  rw [ht]
  rfl

theorem findTable_post_serialized (db : DB) (ht : db.tables = postTables) :
    db.findTable "serialized_dag" = some serialized_dag_post := by
  simp only [DB.findTable]
  rw [ht]
  rfl

theorem findTable_post_dagVersion (db : DB) (ht : db.tables = postTables) :
    db.findTable "dag_version" = some dag_version_table := by
  simp only [DB.findTable]
  rw [ht]
  rfl

theorem findTable_post_ti (db : DB) (ht : db.tables = postTables) :
    db.findTable "task_instance" = some task_instance_post := by
  simp only [DB.findTable]
  rw [ht]
  rfl

theorem findTable_post_dagRun (db : DB) (ht : db.tables = postTables) :
    db.findTable "dag_run" = some dag_run_post := by
  simp only [DB.findTable]
  rw [ht]
  rfl

/-- In the post-upgrade schema, `dag` has no foreign keys, so cascade waves
never remove `dag` rows. -/
theorem propagate_dagRows_post : ∀ fuel : Nat, ∀ db : DB, db.tables = postTables →
    (propagate fuel db).dagRows = db.dagRows := by
  intro fuel
  induction fuel with
  | zero => intro db _; rfl
  | succ n ih =>
    intro db ht
    have hw : (wave db).tables = postTables := ht
    show (propagate n (wave db)).dagRows = db.dagRows
    rw [ih (wave db) hw, wave_dagRows]
    exact List.filter_eq_self.mpr
      (fun r _ => rowAliveIn_of_no_fks db "dag" dag_table (findTable_post_dag db ht) rfl r)

/-- In the post-upgrade schema, `dag_run` has no foreign keys, so cascade
waves never remove `dag_run` rows. -/
theorem propagate_dagRunRows_post : ∀ fuel : Nat, ∀ db : DB, db.tables = postTables →
    (propagate fuel db).dagRunRows = db.dagRunRows := by
  intro fuel
  induction fuel with
  | zero => intro db _; rfl
  | succ n ih =>
    intro db ht
    have hw : (wave db).tables = postTables := ht
    show (propagate n (wave db)).dagRunRows = db.dagRunRows
    rw [ih (wave db) hw, wave_dagRunRows]
    exact List.filter_eq_self.mpr
      (fun r _ => rowAliveIn_of_no_fks db "dag_run" dag_run_post (findTable_post_dagRun db ht) rfl r)

theorem fix_dagCode_alive (db : DB) (h : wave db = db) :
    ∀ r ∈ db.dagCodeRows, rowAliveIn db "dag_code" r = true := by
  have h2 := congrArg DB.dagCodeRows h
  rw [wave_dagCodeRows] at h2
  exact List.filter_eq_self.mp h2

theorem fix_serialized_alive (db : DB) (h : wave db = db) :
    ∀ r ∈ db.serializedRows, rowAliveIn db "serialized_dag" r = true := by
  have h2 := congrArg DB.serializedRows h
  rw [wave_serializedRows] at h2
  exact List.filter_eq_self.mp h2

theorem fix_dagVersion_alive (db : DB) (h : wave db = db) :
    ∀ r ∈ db.dagVersionRows, rowAliveIn db "dag_version" r = true := by
  have h2 := congrArg DB.dagVersionRows h
  rw [wave_dagVersionRows] at h2
  exact List.filter_eq_self.mp h2

theorem fix_ti_alive (db : DB) (h : wave db = db) :
    ∀ r ∈ db.tiRows, rowAliveIn db "task_instance" r = true := by
  have h2 := congrArg DB.tiRows h
  rw [wave_tiRows] at h2
  exact List.filter_eq_self.mp h2

/-- Unfolding of `rowAliveIn` for a table with a single cascading
single-column foreign key: the row's key is NULL or matched. -/
theorem rowAliveIn_single_cascade (db : DB) (n fname c rn rc : String) (t : Table)
    (hf : db.findTable n = some t)
    (hfks : t.fks = [⟨fname, [c], rn, [rc], true⟩]) (r : Row)
    (ha : rowAliveIn db n r = true) :
    getVal r c = Value.null ∨ ∃ v ∈ db.rowsOf rn, getVal v rc = getVal r c := by
  unfold rowAliveIn at ha
  rw [hf] at ha
  have ha2 : rowAlive db t r = true := ha
  unfold rowAlive at ha2
  rw [hfks] at ha2
  simp only [List.all_cons, List.all_nil, Bool.and_true, Bool.not_true, Bool.false_or] at ha2
  unfold fkSatisfied at ha2
  simp only [Bool.or_eq_true, beq_iff_eq, List.any_eq_true] at ha2
  exact ha2

/-! ### Shape comparison and further helpers -/

/-- The two lists hold the same elements (as sets). -/
def sameSetB [BEq α] (xs ys : List α) : Bool :=
  xs.all (fun x => ys.contains x) && ys.all (fun y => xs.contains y)

/-- Same schema shape: same name, column set, primary key, foreign keys,
unique constraints and indexes (constraint order immaterial). -/
def Table.shapeEqb (t1 t2 : Table) : Bool :=
  t1.name == t2.name && sameSetB t1.columns t2.columns && t1.pk == t2.pk
    && sameSetB t1.fks t2.fks && sameSetB t1.uniques t2.uniques
    && sameSetB t1.indexes t2.indexes

theorem findTable_post_tih (db : DB) (ht : db.tables = postTables) :
    db.findTable "task_instance_history" = some task_instance_history_post := by
  simp only [DB.findTable]
  rw [ht]
  rfl

theorem mapRows_tables (db : DB) (n : String) (f : List Row → List Row) :
    (db.mapRows n f).tables = db.tables := by
  unfold DB.mapRows
  rw [setRows_tables]

/-- Inserting a row that collides with a stored row on a unique constraint
is rejected. -/
theorem insertRow_unique_violation (db : DB) (n : String) (t : Table) (u : UniqueC)
    (r r2 : Row) (hf : db.findTable n = some t) (hu : u ∈ t.uniques)
    (hr : r ∈ db.rowsOf n) (hconf : uniqueConflict r r2 u.cols = true) :
    insertRow db n r2 = none := by
  unfold insertRow
  rw [hf]
  show (if (t.columns.all fun c => c.nullable || !(getVal r2 c.name == Value.null))
      && ((db.rowsOf n).all fun r3 => !uniqueConflict r3 r2 t.pk)
      && (t.uniques.all fun u2 => (db.rowsOf n).all fun r3 => !uniqueConflict r3 r2 u2.cols)
      && (t.fks.all fun fk => fkSatisfied db fk r2) then
       some (db.setRows n (db.rowsOf n ++ [r2])) else none) = none
  have hC : (t.uniques.all fun u2 =>
      (db.rowsOf n).all fun r3 => !uniqueConflict r3 r2 u2.cols) = false := by
    have hC' : ¬ ((t.uniques.all fun u2 =>
        (db.rowsOf n).all fun r3 => !uniqueConflict r3 r2 u2.cols) = true) := by
      intro hall
      have h1 := List.all_eq_true.mp hall u hu
      have h2 := List.all_eq_true.mp h1 r hr
      rw [hconf] at h2
      exact absurd h2 (by decide)
    exact Bool.eq_false_iff.mpr hC'
  rw [hC]
  simp

theorem execDeleteAll_tables (db : DB) (n : String) :
    (execDeleteAll db n).tables = db.tables := by
  show (propagate (totalRows (db.setRows n []) + 1) (db.setRows n [])).tables = db.tables
  rw [propagate_tables, setRows_tables]

theorem execDeleteAll_sub_dagCode (db : DB) (n : String) :
    List.Sublist (execDeleteAll db n).dagCodeRows (db.setRows n []).dagCodeRows := by
  show List.Sublist (propagate (totalRows (db.setRows n []) + 1)
    (db.setRows n [])).dagCodeRows _
  exact propagate_dagCodeRows_sublist _ _

theorem execDeleteAll_sub_serialized (db : DB) (n : String) :
    List.Sublist (execDeleteAll db n).serializedRows (db.setRows n []).serializedRows := by
  show List.Sublist (propagate (totalRows (db.setRows n []) + 1)
    (db.setRows n [])).serializedRows _
  exact propagate_serializedRows_sublist _ _

theorem execDeleteAll_sub_dagVersion (db : DB) (n : String) :
    List.Sublist (execDeleteAll db n).dagVersionRows (db.setRows n []).dagVersionRows := by
  show List.Sublist (propagate (totalRows (db.setRows n []) + 1)
    (db.setRows n [])).dagVersionRows _
  exact propagate_dagVersionRows_sublist _ _

theorem execDeleteAll_dagRows_post (db : DB) (n : String)
    (ht : (db.setRows n []).tables = postTables) :
    (execDeleteAll db n).dagRows = (db.setRows n []).dagRows := by
  show (propagate (totalRows (db.setRows n []) + 1) (db.setRows n [])).dagRows = _
  exact propagate_dagRows_post _ _ ht

theorem execDeleteAll_dagRunRows_post (db : DB) (n : String)
    (ht : (db.setRows n []).tables = postTables) :
    (execDeleteAll db n).dagRunRows = (db.setRows n []).dagRunRows := by
  show (propagate (totalRows (db.setRows n []) + 1) (db.setRows n [])).dagRunRows = _
  exact propagate_dagRunRows_post _ _ ht

theorem execDeleteWhere_tables (db : DB) (n : String) (p : Row → Bool) :
    (execDeleteWhere db n p).tables = db.tables := by
  show (propagate (totalRows (db.mapRows n (List.filter (fun r => !p r))) + 1)
    (db.mapRows n (List.filter (fun r => !p r)))).tables = db.tables
  rw [propagate_tables, mapRows_tables]

theorem execDeleteWhere_sub_dagVersion (db : DB) (n : String) (p : Row → Bool) :
    List.Sublist (execDeleteWhere db n p).dagVersionRows
      (db.mapRows n (List.filter (fun r => !p r))).dagVersionRows := by
  show List.Sublist (propagate (totalRows (db.mapRows n (List.filter (fun r => !p r))) + 1)
    (db.mapRows n (List.filter (fun r => !p r)))).dagVersionRows _
  exact propagate_dagVersionRows_sublist _ _

theorem execDeleteWhere_dagRows_post (db : DB) (n : String) (p : Row → Bool)
    (ht : (db.mapRows n (List.filter (fun r => !p r))).tables = postTables) :
    (execDeleteWhere db n p).dagRows
      = (db.mapRows n (List.filter (fun r => !p r))).dagRows := by
  show (propagate (totalRows (db.mapRows n (List.filter (fun r => !p r))) + 1)
    (db.mapRows n (List.filter (fun r => !p r)))).dagRows = _
  exact propagate_dagRows_post _ _ ht

theorem postDB_mk (a b c d e f g : List Row) :
    postDB a b c d e f g = ⟨postTables, a, b, c, d, e, f, g⟩ := rfl

theorem rowAliveIn_single_cascade_null (db : DB) (n fname c rn rc : String) (t : Table)
    (hf : db.findTable n = some t)
    (hfks : t.fks = [⟨fname, [c], rn, [rc], true⟩]) (r : Row)
    (hnull : getVal r c = Value.null) : rowAliveIn db n r = true := by
  unfold rowAliveIn
  rw [hf]
  show rowAlive db t r = true
  unfold rowAlive
  rw [hfks]
  simp only [List.all_cons, List.all_nil, Bool.and_true, Bool.not_true, Bool.false_or]
  unfold fkSatisfied
  simp [hnull]

/-- `DELETE FROM dag_version` on a post-upgrade database: the version table
becomes empty and the cascade empties both artifact tables (their
`dag_version_id` is NOT NULL, so no artifact row survives); `dag` and
`dag_run` rows are untouched. -/
theorem deleteAllDagVersion_spec (db : DB) (ht : db.tables = postTables)
    (hcs : ∀ r ∈ db.dagCodeRows, getVal r "dag_version_id" ≠ Value.null)
    (hss : ∀ r ∈ db.serializedRows, getVal r "dag_version_id" ≠ Value.null) :
    (execDeleteAll db "dag_version").tables = postTables ∧
    (execDeleteAll db "dag_version").dagVersionRows = [] ∧
    (execDeleteAll db "dag_version").dagCodeRows = [] ∧
    (execDeleteAll db "dag_version").serializedRows = [] ∧
    (execDeleteAll db "dag_version").dagRows = db.dagRows ∧
    (execDeleteAll db "dag_version").dagRunRows = db.dagRunRows := by
  have htset : (db.setRows "dag_version" []).tables = postTables := by
    rw [setRows_tables]; exact ht
  have hET : (execDeleteAll db "dag_version").tables = postTables := by
    rw [execDeleteAll_tables]; exact ht
  have hfix : wave (execDeleteAll db "dag_version") = execDeleteAll db "dag_version" :=
    execDeleteAll_fix db "dag_version"
  have hdv : (execDeleteAll db "dag_version").dagVersionRows = [] := by
    have hsub := execDeleteAll_sub_dagVersion db "dag_version"
    have hz : (db.setRows "dag_version" []).dagVersionRows = [] := rfl
    rw [hz] at hsub
    exact List.sublist_nil.mp hsub
  have hdc : (execDeleteAll db "dag_version").dagCodeRows = [] := by
    rw [List.eq_nil_iff_forall_not_mem]
    intro r hr
    have halive := fix_dagCode_alive _ hfix r hr
    have hcase := rowAliveIn_single_cascade _ "dag_code" "dag_code_dag_version_id_fkey"
      "dag_version_id" "dag_version" "id" dag_code_post
      (findTable_post_dagCode _ hET) rfl r halive
    have hrin : r ∈ db.dagCodeRows := by
      have hsub := execDeleteAll_sub_dagCode db "dag_version"
      have hz : (db.setRows "dag_version" []).dagCodeRows = db.dagCodeRows := rfl
      rw [hz] at hsub
      exact hsub.subset hr
    rcases hcase with hnull | ⟨v, hv, _⟩
    · exact hcs r hrin hnull
    · rw [rowsOf_dagVersion, hdv] at hv
      exact absurd hv (List.not_mem_nil v)
  have hsd : (execDeleteAll db "dag_version").serializedRows = [] := by
    rw [List.eq_nil_iff_forall_not_mem]
    intro r hr
    have halive := fix_serialized_alive _ hfix r hr
    have hcase := rowAliveIn_single_cascade _ "serialized_dag"
      "serialized_dag_dag_version_id_fkey" "dag_version_id" "dag_version" "id"
      serialized_dag_post (findTable_post_serialized _ hET) rfl r halive
    have hrin : r ∈ db.serializedRows := by
      have hsub := execDeleteAll_sub_serialized db "dag_version"
      have hz : (db.setRows "dag_version" []).serializedRows = db.serializedRows := rfl
      rw [hz] at hsub
      exact hsub.subset hr
    rcases hcase with hnull | ⟨v, hv, _⟩
    · exact hss r hrin hnull
    · rw [rowsOf_dagVersion, hdv] at hv
      exact absurd hv (List.not_mem_nil v)
  have hdg : (execDeleteAll db "dag_version").dagRows = db.dagRows := by
    rw [execDeleteAll_dagRows_post db "dag_version" htset]
    rfl
  have hdrn : (execDeleteAll db "dag_version").dagRunRows = db.dagRunRows := by
    rw [execDeleteAll_dagRunRows_post db "dag_version" htset]
    rfl
  exact ⟨hET, hdv, hdc, hsd, hdg, hdrn⟩

/-- `downgrade` on a post-upgrade database whose artifact rows satisfy their
NOT NULL constraint: it succeeds, restores the pre-migration table shapes,
and restores no artifact data. -/
theorem downgrade_postDB_spec (dg cs ss vs ti tih dr : List Row)
    (hcs : ∀ r ∈ cs, getVal r "dag_version_id" ≠ Value.null)
    (hss : ∀ r ∈ ss, getVal r "dag_version_id" ≠ Value.null) :
    ∃ db2 : DB, downgrade (postDB dg cs ss vs ti tih dr) = some db2 ∧
      db2.tables = downTables ∧ db2.dagCodeRows = [] ∧ db2.serializedRows = [] ∧
      db2.dagVersionRows = [] ∧ db2.dagRows = dg ∧ db2.dagRunRows = dr := by
  obtain ⟨hT, hdv, hdc, hsd, hdg, hdrn⟩ :=
    deleteAllDagVersion_spec (postDB dg cs ss vs ti tih dr) rfl hcs hss
  have heta : execDeleteAll (postDB dg cs ss vs ti tih dr) "dag_version"
      = (⟨(execDeleteAll (postDB dg cs ss vs ti tih dr) "dag_version").tables,
          (execDeleteAll (postDB dg cs ss vs ti tih dr) "dag_version").dagRows,
          (execDeleteAll (postDB dg cs ss vs ti tih dr) "dag_version").dagCodeRows,
          (execDeleteAll (postDB dg cs ss vs ti tih dr) "dag_version").serializedRows,
          (execDeleteAll (postDB dg cs ss vs ti tih dr) "dag_version").dagVersionRows,
          (execDeleteAll (postDB dg cs ss vs ti tih dr) "dag_version").tiRows,
          (execDeleteAll (postDB dg cs ss vs ti tih dr) "dag_version").tihRows,
          (execDeleteAll (postDB dg cs ss vs ti tih dr) "dag_version").dagRunRows⟩ : DB) := rfl
  rw [hT, hdc, hsd, hdv, hdg, hdrn] at heta
  show ∃ db2, downgradeRest (execDeleteAll (postDB dg cs ss vs ti tih dr) "dag_version")
    = some db2 ∧ _
  rw [heta, downgradeRest_spec]
  exact ⟨_, rfl, rfl, rfl, rfl, rfl, rfl, rfl⟩

/-- On a post-upgrade database with empty version and artifact stores whose
`task_instance` rows make no version reference, a cascade wave removes
nothing. -/
theorem wave_postDB_empty (dg ti tih dr : List Row)
    (hti : ∀ r ∈ ti, getVal r "dag_version_id" = Value.null) :
    wave (postDB dg [] [] [] ti tih dr) = postDB dg [] [] [] ti tih dr := by
  rw [postDB_mk]
  simp only [wave]
  simp only [DB.mk.injEq]
  refine ⟨trivial, ?_, ?_, ?_, ?_, ?_, ?_, ?_⟩
  · exact List.filter_eq_self.mpr fun r _ =>
      rowAliveIn_of_no_fks _ "dag" dag_table (findTable_post_dag _ rfl) rfl r
  · exact List.filter_nil _
  · exact List.filter_nil _
  · exact List.filter_nil _
  · exact List.filter_eq_self.mpr fun r hr =>
      rowAliveIn_single_cascade_null _ "task_instance" "task_instance_dag_version_id_fkey"
        "dag_version_id" "dag_version" "id" task_instance_post
        (findTable_post_ti _ rfl) rfl r (hti r hr)
  · exact List.filter_eq_self.mpr fun r _ =>
      rowAliveIn_of_no_fks _ "task_instance_history" task_instance_history_post
        (findTable_post_tih _ rfl) rfl r
  · exact List.filter_eq_self.mpr fun r _ =>
      rowAliveIn_of_no_fks _ "dag_run" dag_run_post (findTable_post_dagRun _ rfl) rfl r

/-! ### The claims -/

/-- C1: after `upgrade()` both `dag_code` and `serialized_dag` carry a unique
constraint on their NOT NULL `dag_version_id` column, so each version has at
most one artifact row of each kind, and any insert that repeats the
`dag_version_id` of a stored row is rejected. -/
theorem claim_C1_unique_artifact_per_version :
    (∀ dg dc sd ti tih dr : List Row, ∃ db2 : DB,
      upgrade (preDB dg dc sd ti tih dr) = some db2 ∧
      db2.findTable "dag_code" = some dag_code_post ∧
      db2.findTable "serialized_dag" = some serialized_dag_post ∧
      (⟨"dag_code_dag_version_id_uq", ["dag_version_id"]⟩ : UniqueC) ∈ dag_code_post.uniques ∧
      (⟨"serialized_dag_dag_version_id_uq", ["dag_version_id"]⟩ : UniqueC)
        ∈ serialized_dag_post.uniques ∧
      (⟨"dag_version_id", ColType.uuid, false⟩ : Column) ∈ dag_code_post.columns ∧
      (⟨"dag_version_id", ColType.uuid, false⟩ : Column) ∈ serialized_dag_post.columns) ∧
    (∀ (db : DB) (n : String) (t : Table) (u : UniqueC) (r r2 : Row),
      db.findTable n = some t → u ∈ t.uniques → u.cols = ["dag_version_id"] →
      r ∈ db.rowsOf n →
      getVal r2 "dag_version_id" = getVal r "dag_version_id" →
      getVal r "dag_version_id" ≠ Value.null →
      insertRow db n r2 = none) := by
  constructor
  · intro dg dc sd ti tih dr
    exact ⟨_, upgrade_preDB dg dc sd ti tih dr, rfl, rfl,
      by decide, by decide, by decide, by decide⟩
  · intro db n t u r r2 hf hu hcols hr heq hnn
    apply insertRow_unique_violation db n t u r r2 hf hu hr
    rw [hcols]
    unfold uniqueConflict
    simp [heq, hnn]

/-- Witness for C1: inserting a second `dag_code` row for version `v1` into a
post-upgrade database that already stores one fails. -/
theorem claim_C1_witness :
    insertRow (postDB [] [[("dag_version_id", Value.str "v1")]] [] [] [] [] [])
      "dag_code" [("id", Value.str "k"), ("dag_version_id", Value.str "v1")] = none :=
  claim_C1_unique_artifact_per_version.2
    (postDB [] [[("dag_version_id", Value.str "v1")]] [] [] [] [] [])
    "dag_code" dag_code_post ⟨"dag_code_dag_version_id_uq", ["dag_version_id"]⟩
    [("dag_version_id", Value.str "v1")]
    [("id", Value.str "k"), ("dag_version_id", Value.str "v1")]
    (by decide) (by decide) (by decide) (by decide) (by decide) (by decide)

/-- C4: after `upgrade()` the `dag_version` table has the unique constraint
`dag_id_v_name_v_number_unique_constraint` on `(dag_id, version_number)`, and
inserting a version row that repeats the `(dag_id, version_number)` of a
stored row is rejected. -/
theorem claim_C4_version_number_unique :
    (∀ dg dc sd ti tih dr : List Row, ∃ db2 : DB,
      upgrade (preDB dg dc sd ti tih dr) = some db2 ∧
      db2.findTable "dag_version" = some dag_version_table ∧
      (⟨"dag_id_v_name_v_number_unique_constraint", ["dag_id", "version_number"]⟩ : UniqueC)
        ∈ dag_version_table.uniques ∧
      (⟨"dag_id", ColType.stringT 250, false⟩ : Column) ∈ dag_version_table.columns ∧
      (⟨"version_number", ColType.integer, false⟩ : Column) ∈ dag_version_table.columns) ∧
    (∀ (db : DB) (t : Table) (u : UniqueC) (r r2 : Row),
      db.findTable "dag_version" = some t → u ∈ t.uniques →
      u.cols = ["dag_id", "version_number"] →
      r ∈ db.rowsOf "dag_version" →
      getVal r2 "dag_id" = getVal r "dag_id" →
      getVal r2 "version_number" = getVal r "version_number" →
      getVal r "dag_id" ≠ Value.null →
      getVal r "version_number" ≠ Value.null →
      insertRow db "dag_version" r2 = none) := by
  constructor
  · intro dg dc sd ti tih dr
    exact ⟨_, upgrade_preDB dg dc sd ti tih dr, rfl, by decide, by decide, by decide⟩
  · intro db t u r r2 hf hu hcols hr heq1 heq2 hnn1 hnn2
    apply insertRow_unique_violation db "dag_version" t u r r2 hf hu hr
    rw [hcols]
    unfold uniqueConflict
    simp [heq1, heq2, hnn1, hnn2]

/-- Witness for C4: inserting a second version row with the same
`(dag_id, version_number)` pair fails. -/
theorem claim_C4_witness :
    insertRow (postDB [] [] [] [[("id", Value.str "v1"), ("dag_id", Value.str "a"),
        ("version_number", Value.int 1)]] [] [] [])
      "dag_version" [("id", Value.str "v2"), ("dag_id", Value.str "a"),
        ("version_number", Value.int 1)] = none :=
  claim_C4_version_number_unique.2
    (postDB [] [] [] [[("id", Value.str "v1"), ("dag_id", Value.str "a"),
        ("version_number", Value.int 1)]] [] [] [])
    dag_version_table ⟨"dag_id_v_name_v_number_unique_constraint", ["dag_id", "version_number"]⟩
    [("id", Value.str "v1"), ("dag_id", Value.str "a"), ("version_number", Value.int 1)]
    [("id", Value.str "v2"), ("dag_id", Value.str "a"), ("version_number", Value.int 1)]
    (by decide) (by decide) (by decide) (by decide) (by decide) (by decide)
    (by decide) (by decide)

/-- Counterexample to C5 as stated: after `upgrade()` on a concrete empty
pre-migration database, `task_instance_history` has NO foreign keys at all —
its `dag_version_id` column is added without any foreign-key constraint
(source lines 157-158 only call `add_column`), contradicting the claim that
both execution tables receive a cascade foreign key. -/
theorem claim_C5_counterexample :
    ((upgrade (preDB [] [] [] [] [] [])).bind
        (fun db => db.findTable "task_instance_history")).map Table.fks = some [] := by
  rw [upgrade_preDB]
  rfl

/-- C5 amended: `upgrade()` adds a nullable `dag_version_id` column to both
execution-record tables, but only `task_instance` receives the cascade-delete
foreign key to `dag_version.id`; `task_instance_history` receives the bare
column and no foreign-key constraint. -/
theorem claim_C5_amended (dg dc sd ti tih dr : List Row) :
    ∃ db2 : DB, upgrade (preDB dg dc sd ti tih dr) = some db2 ∧
      db2.findTable "task_instance" = some task_instance_post ∧
      (⟨"dag_version_id", ColType.uuid, true⟩ : Column) ∈ task_instance_post.columns ∧
      (⟨"task_instance_dag_version_id_fkey", ["dag_version_id"], "dag_version", ["id"], true⟩
        : FK) ∈ task_instance_post.fks ∧
      db2.findTable "task_instance_history" = some task_instance_history_post ∧
      (⟨"dag_version_id", ColType.uuid, true⟩ : Column) ∈ task_instance_history_post.columns ∧
      task_instance_history_post.fks = [] :=
  ⟨_, upgrade_preDB dg dc sd ti tih dr, rfl, by decide, by decide, rfl, by decide, rfl⟩

/-- C7: `upgrade()` rewrites `dag_code`: the `fileloc_hash` natural-key
primary key (the old primary key) is replaced by the surrogate `id`; a
unique, NOT NULL, cascade-deleting `dag_version_id` is added; `source_code_hash`
(32 chars), `dag_id` and `created_at` are added; `fileloc_hash` is dropped. -/
theorem claim_C7_dag_code_rewrite (dg dc sd ti tih dr : List Row) :
    old_dagcode_table.pk = ["fileloc_hash"] ∧
    ∃ db2 : DB, upgrade (preDB dg dc sd ti tih dr) = some db2 ∧
      db2.findTable "dag_code" = some dag_code_post ∧
      dag_code_post.pk = ["id"] ∧
      (⟨"id", ColType.uuid, false⟩ : Column) ∈ dag_code_post.columns ∧
      (⟨"dag_version_id", ColType.uuid, false⟩ : Column) ∈ dag_code_post.columns ∧
      (⟨"dag_code_dag_version_id_uq", ["dag_version_id"]⟩ : UniqueC) ∈ dag_code_post.uniques ∧
      (⟨"dag_code_dag_version_id_fkey", ["dag_version_id"], "dag_version", ["id"], true⟩
        : FK) ∈ dag_code_post.fks ∧
      (⟨"source_code_hash", ColType.stringT 32, false⟩ : Column) ∈ dag_code_post.columns ∧
      (⟨"dag_id", ColType.stringT 250, false⟩ : Column) ∈ dag_code_post.columns ∧
      (⟨"created_at", ColType.utcDateTime, false⟩ : Column) ∈ dag_code_post.columns ∧
      (∀ c ∈ dag_code_post.columns, c.name ≠ "fileloc_hash") :=
  ⟨rfl, _, upgrade_preDB dg dc sd ti tih dr, rfl, rfl, by decide, by decide, by decide,
    by decide, by decide, by decide, by decide, by decide⟩

/-- C10: `upgrade()` leaves every column it does not name unchanged: the
listed `dag_code` and `serialized_dag` columns survive the rewrite with the
same type and nullability they had in the old tables. -/
theorem claim_C10_frame (dg dc sd ti tih dr : List Row) :
    ∃ db2 : DB, upgrade (preDB dg dc sd ti tih dr) = some db2 ∧
      db2.findTable "dag_code" = some dag_code_post ∧
      db2.findTable "serialized_dag" = some serialized_dag_post ∧
      ((⟨"fileloc", ColType.stringT 2000, false⟩ : Column) ∈ old_dagcode_table.columns ∧
        (⟨"fileloc", ColType.stringT 2000, false⟩ : Column) ∈ dag_code_post.columns) ∧
      ((⟨"last_updated", ColType.utcDateTime, false⟩ : Column) ∈ old_dagcode_table.columns ∧
        (⟨"last_updated", ColType.utcDateTime, false⟩ : Column) ∈ dag_code_post.columns) ∧
      ((⟨"source_code", ColType.text, false⟩ : Column) ∈ old_dagcode_table.columns ∧
        (⟨"source_code", ColType.text, false⟩ : Column) ∈ dag_code_post.columns) ∧
      ((⟨"dag_id", ColType.stringT 250, false⟩ : Column) ∈ old_serialized_table.columns ∧
        (⟨"dag_id", ColType.stringT 250, false⟩ : Column) ∈ serialized_dag_post.columns) ∧
      ((⟨"data", ColType.jsonField, true⟩ : Column) ∈ old_serialized_table.columns ∧
        (⟨"data", ColType.jsonField, true⟩ : Column) ∈ serialized_dag_post.columns) ∧
      ((⟨"data_compressed", ColType.largeBinary, true⟩ : Column) ∈ old_serialized_table.columns ∧
        (⟨"data_compressed", ColType.largeBinary, true⟩ : Column) ∈ serialized_dag_post.columns) ∧
      ((⟨"dag_hash", ColType.stringT 32, false⟩ : Column) ∈ old_serialized_table.columns ∧
        (⟨"dag_hash", ColType.stringT 32, false⟩ : Column) ∈ serialized_dag_post.columns) ∧
      ((⟨"last_updated", ColType.utcDateTime, false⟩ : Column) ∈ old_serialized_table.columns ∧
        (⟨"last_updated", ColType.utcDateTime, false⟩ : Column) ∈ serialized_dag_post.columns) ∧
      ((⟨"processor_subdir", ColType.stringT 2000, true⟩ : Column) ∈ old_serialized_table.columns ∧
        (⟨"processor_subdir", ColType.stringT 2000, true⟩ : Column)
          ∈ serialized_dag_post.columns) :=
  ⟨_, upgrade_preDB dg dc sd ti tih dr, rfl, rfl, by decide, by decide, by decide, by decide,
    by decide, by decide, by decide, by decide, by decide⟩

/-- C3: `upgrade()` starts with the purge: `_delete_serdag_and_code` empties
`serialized_dag` and `dag_code` while changing no table schema and no other
row store (the purged state is exactly `preDB dg [] [] ti tih dr`), and the
full `upgrade()` leaves both artifact tables still empty — the deletion is
never undone. -/
theorem claim_C3_purge_first (dg dc sd ti tih dr : List Row) :
    delete_serdag_and_code (preDB dg dc sd ti tih dr) = preDB dg [] [] ti tih dr ∧
    (preDB dg [] [] ti tih dr).tables = (preDB dg dc sd ti tih dr).tables ∧
    upgrade (preDB dg dc sd ti tih dr)
      = some (postDB dg [] [] [] ti tih (dr.map (eraseField "dag_hash"))) :=
  ⟨purge_preDB dg dc sd ti tih dr, rfl, upgrade_preDB dg dc sd ti tih dr⟩

/-- C2: `downgrade()` directly after `upgrade()` always succeeds and restores
the pre-migration schema shape exactly — same column set, primary key,
foreign keys, unique constraints and indexes on `dag_code` and
`serialized_dag`, and the literally identical `task_instance`,
`task_instance_history` and `dag_run` tables — while `dag_version` is gone
and all artifact row data is lost.  The hypothesis states that pre-migration
`task_instance` rows carry no version reference (the column does not exist
yet). -/
theorem claim_C2_roundtrip_restores_schema (dg dc sd ti tih dr : List Row)
    (hti : ∀ r ∈ ti, getVal r "dag_version_id" = Value.null) :
    ∃ db2 : DB, Option.bind (upgrade (preDB dg dc sd ti tih dr)) downgrade = some db2 ∧
      db2.findTable "dag_code" = some dag_code_down ∧
      Table.shapeEqb dag_code_down old_dagcode_table = true ∧
      db2.findTable "serialized_dag" = some serialized_dag_down ∧
      Table.shapeEqb serialized_dag_down old_serialized_table = true ∧
      db2.findTable "task_instance" = some task_instance_table ∧
      db2.findTable "task_instance_history" = some task_instance_history_table ∧
      db2.findTable "dag_run" = some dag_run_table ∧
      db2.findTable "dag_version" = none ∧
      db2.dagCodeRows = [] ∧ db2.serializedRows = [] := by
  rw [upgrade_preDB, obind_some]
  have hw := wave_postDB_empty dg ti tih (dr.map (eraseField "dag_hash")) hti
  have hset : (postDB dg [] [] [] ti tih (dr.map (eraseField "dag_hash"))).setRows
      "dag_version" [] = postDB dg [] [] [] ti tih (dr.map (eraseField "dag_hash")) := rfl
  have hdel : execDeleteAll (postDB dg [] [] [] ti tih (dr.map (eraseField "dag_hash")))
      "dag_version" = postDB dg [] [] [] ti tih (dr.map (eraseField "dag_hash")) := by
    show propagate
      (totalRows ((postDB dg [] [] [] ti tih (dr.map (eraseField "dag_hash"))).setRows
        "dag_version" []) + 1)
      ((postDB dg [] [] [] ti tih (dr.map (eraseField "dag_hash"))).setRows "dag_version" [])
      = postDB dg [] [] [] ti tih (dr.map (eraseField "dag_hash"))
    rw [hset]
    exact propagate_of_fix hw _
  unfold downgrade
  rw [hdel, postDB_mk, downgradeRest_spec]
  exact ⟨_, rfl, rfl, by decide, rfl, by decide, rfl, rfl, rfl, rfl, rfl, rfl⟩

/-- Witness for C2: the round trip on the empty pre-migration database
succeeds. -/
theorem claim_C2_witness :
    (Option.bind (upgrade (preDB [] [] [] [] [] [])) downgrade).isSome = true := by
  obtain ⟨db2, h, _⟩ :=
    claim_C2_roundtrip_restores_schema [] [] [] [] [] [] (by decide)
  rw [h]
  rfl

/-- C8: `downgrade()` begins with `DELETE FROM dag_version`, which empties
the version store and — by the NOT NULL cascade foreign keys — both artifact
tables; the schema phase then succeeds, reinstates the natural-key primary
keys and dropped columns on the (still empty) artifact tables, restores the
execution-record and `dag_run` tables to their pre-migration shapes, and
re-adds `dag_hash` as nullable with every surviving `dag_run` row reading
NULL in it. -/
theorem claim_C8_downgrade_flow (dg cs ss vs ti tih dr : List Row)
    (hcs : ∀ r ∈ cs, getVal r "dag_version_id" ≠ Value.null)
    (hss : ∀ r ∈ ss, getVal r "dag_version_id" ≠ Value.null)
    (hdr : ∀ r ∈ dr, getVal r "dag_hash" = Value.null) :
    (execDeleteAll (postDB dg cs ss vs ti tih dr) "dag_version").dagVersionRows = [] ∧
    (execDeleteAll (postDB dg cs ss vs ti tih dr) "dag_version").dagCodeRows = [] ∧
    (execDeleteAll (postDB dg cs ss vs ti tih dr) "dag_version").serializedRows = [] ∧
    ∃ db2 : DB, downgrade (postDB dg cs ss vs ti tih dr) = some db2 ∧
      db2.findTable "dag_code" = some dag_code_down ∧
      dag_code_down.pk = ["fileloc_hash"] ∧
      (⟨"fileloc_hash", ColType.bigint, false⟩ : Column) ∈ dag_code_down.columns ∧
      db2.findTable "serialized_dag" = some serialized_dag_down ∧
      serialized_dag_down.pk = ["dag_id"] ∧
      (⟨"fileloc", ColType.stringT 2000, false⟩ : Column) ∈ serialized_dag_down.columns ∧
      (⟨"fileloc_hash", ColType.bigint, false⟩ : Column) ∈ serialized_dag_down.columns ∧
      db2.dagCodeRows = [] ∧ db2.serializedRows = [] ∧
      db2.findTable "task_instance" = some task_instance_table ∧
      db2.findTable "task_instance_history" = some task_instance_history_table ∧
      db2.findTable "dag_run" = some dag_run_table ∧
      (⟨"dag_hash", ColType.stringT 32, true⟩ : Column) ∈ dag_run_table.columns ∧
      (∀ r ∈ db2.dagRunRows, getVal r "dag_hash" = Value.null) ∧
      db2.findTable "dag_version" = none := by
  obtain ⟨hT, hdv, hdc, hsd, hdg, hdrn⟩ :=
    deleteAllDagVersion_spec (postDB dg cs ss vs ti tih dr) rfl hcs hss
  refine ⟨hdv, hdc, hsd, ?_⟩
  obtain ⟨db2, hd, ht2, hc2, hs2, hv2, hg2, hr2⟩ :=
    downgrade_postDB_spec dg cs ss vs ti tih dr hcs hss
  have hfc : db2.findTable "dag_code" = some dag_code_down := by
    simp only [DB.findTable]; rw [ht2]; rfl
  have hfs : db2.findTable "serialized_dag" = some serialized_dag_down := by
    simp only [DB.findTable]; rw [ht2]; rfl
  have hfti : db2.findTable "task_instance" = some task_instance_table := by
    simp only [DB.findTable]; rw [ht2]; rfl
  have hftih : db2.findTable "task_instance_history" = some task_instance_history_table := by
    simp only [DB.findTable]; rw [ht2]; rfl
  have hfdr : db2.findTable "dag_run" = some dag_run_table := by
    simp only [DB.findTable]; rw [ht2]; rfl
  have hfdv : db2.findTable "dag_version" = none := by
    simp only [DB.findTable]; rw [ht2]; rfl
  refine ⟨db2, hd, hfc, rfl, by decide, hfs, rfl, by decide, by decide, hc2, hs2,
    hfti, hftih, hfdr, by decide, ?_, hfdv⟩
  rw [hr2]
  exact hdr

/-- Witness for C8: on a concrete populated post-upgrade database the initial
delete empties `dag_code` through the cascade. -/
theorem claim_C8_witness :
    (execDeleteAll (postDB [[("dag_id", Value.str "a")]]
        [[("dag_version_id", Value.str "v1")]] [[("dag_version_id", Value.str "v1")]]
        [[("id", Value.str "v1"), ("dag_id", Value.str "a")]] [] [] [[("id", Value.int 1)]])
      "dag_version").dagCodeRows = [] :=
  (claim_C8_downgrade_flow [[("dag_id", Value.str "a")]]
    [[("dag_version_id", Value.str "v1")]] [[("dag_version_id", Value.str "v1")]]
    [[("id", Value.str "v1"), ("dag_id", Value.str "a")]] [] [] [[("id", Value.int 1)]]
    (by decide) (by decide) (by decide)).2.1

/-- C9: the initial deletions are what make the later NOT NULL column
additions well-defined.  In `upgrade()` the purge leaves `dag_code` and
`serialized_dag` empty, so the whole migration succeeds; in `downgrade()`
the cascade of `DELETE FROM dag_version` leaves both artifact tables empty,
so the whole rollback succeeds. -/
theorem claim_C9_notnull_safe (dg dc sd ti tih dr dg2 cs ss vs ti2 tih2 dr2 : List Row)
    (hcs : ∀ r ∈ cs, getVal r "dag_version_id" ≠ Value.null)
    (hss : ∀ r ∈ ss, getVal r "dag_version_id" ≠ Value.null) :
    (delete_serdag_and_code (preDB dg dc sd ti tih dr)).dagCodeRows = [] ∧
    (delete_serdag_and_code (preDB dg dc sd ti tih dr)).serializedRows = [] ∧
    (upgrade (preDB dg dc sd ti tih dr)).isSome = true ∧
    (execDeleteAll (postDB dg2 cs ss vs ti2 tih2 dr2) "dag_version").dagCodeRows = [] ∧
    (execDeleteAll (postDB dg2 cs ss vs ti2 tih2 dr2) "dag_version").serializedRows = [] ∧
    (downgrade (postDB dg2 cs ss vs ti2 tih2 dr2)).isSome = true := by
  obtain ⟨hT, hdv, hdc, hsd, hdg, hdrn⟩ :=
    deleteAllDagVersion_spec (postDB dg2 cs ss vs ti2 tih2 dr2) rfl hcs hss
  obtain ⟨db2, hd, _⟩ := downgrade_postDB_spec dg2 cs ss vs ti2 tih2 dr2 hcs hss
  refine ⟨?_, ?_, ?_, hdc, hsd, ?_⟩
  · rw [purge_preDB]
    rfl
  · rw [purge_preDB]
    rfl
  · rw [upgrade_preDB]
    rfl
  · rw [hd]
    rfl

/-- Witness for C9: the rollback of a concrete populated post-upgrade
database succeeds. -/
theorem claim_C9_witness :
    (downgrade (postDB [[("dag_id", Value.str "a")]]
        [[("dag_version_id", Value.str "v1")]] [[("dag_version_id", Value.str "v1")]]
        [[("id", Value.str "v1"), ("dag_id", Value.str "a")]] [] [] [])).isSome = true :=
  (claim_C9_notnull_safe [] [] [] [] [] [] [[("dag_id", Value.str "a")]]
    [[("dag_version_id", Value.str "v1")]] [[("dag_version_id", Value.str "v1")]]
    [[("id", Value.str "v1"), ("dag_id", Value.str "a")]] [] [] []
    (by decide) (by decide)).2.2.2.2.2

/-- At a cascade fixpoint of a post-upgrade database, no artifact or
execution-record row references a missing version: every non-NULL
`dag_version_id` matches a stored `dag_version` row. -/
theorem no_dangling_of_fix (db : DB) (hfix : wave db = db) (ht : db.tables = postTables) :
    (∀ r ∈ db.dagCodeRows, getVal r "dag_version_id" ≠ Value.null →
      ∃ v ∈ db.dagVersionRows, getVal v "id" = getVal r "dag_version_id") ∧
    (∀ r ∈ db.serializedRows, getVal r "dag_version_id" ≠ Value.null →
      ∃ v ∈ db.dagVersionRows, getVal v "id" = getVal r "dag_version_id") ∧
    (∀ r ∈ db.tiRows, getVal r "dag_version_id" ≠ Value.null →
      ∃ v ∈ db.dagVersionRows, getVal v "id" = getVal r "dag_version_id") := by
  refine ⟨?_, ?_, ?_⟩
  · intro r hr hnn
    have halive := fix_dagCode_alive _ hfix r hr
    rcases rowAliveIn_single_cascade _ "dag_code" "dag_code_dag_version_id_fkey"
      "dag_version_id" "dag_version" "id" dag_code_post
      (findTable_post_dagCode _ ht) rfl r halive with hnull | ⟨v, hv, hveq⟩
    · exact absurd hnull hnn
    · rw [rowsOf_dagVersion] at hv
      exact ⟨v, hv, hveq⟩
  · intro r hr hnn
    have halive := fix_serialized_alive _ hfix r hr
    rcases rowAliveIn_single_cascade _ "serialized_dag" "serialized_dag_dag_version_id_fkey"
      "dag_version_id" "dag_version" "id" serialized_dag_post
      (findTable_post_serialized _ ht) rfl r halive with hnull | ⟨v, hv, hveq⟩
    · exact absurd hnull hnn
    · rw [rowsOf_dagVersion] at hv
      exact ⟨v, hv, hveq⟩
  · intro r hr hnn
    have halive := fix_ti_alive _ hfix r hr
    rcases rowAliveIn_single_cascade _ "task_instance" "task_instance_dag_version_id_fkey"
      "dag_version_id" "dag_version" "id" task_instance_post
      (findTable_post_ti _ ht) rfl r halive with hnull | ⟨v, hv, hveq⟩
    · exact absurd hnull hnn
    · rw [rowsOf_dagVersion] at hv
      exact ⟨v, hv, hveq⟩

/-- C6: in the post-upgrade schema, deleting the `dag` row of definition `d`
cascades so that no `dag_version` row of `d` survives, while every surviving
`dag_code`, `serialized_dag` or `task_instance` row still references a
surviving version (nothing dangles); and deleting the version with id `w`
cascades so that no artifact or `task_instance` row referencing `w`
survives. -/
theorem claim_C6_cascade_integrity (dg cs ss vs ti tih dr : List Row) (d w : String)
    (hdv : ∀ r ∈ vs, getVal r "dag_id" ≠ Value.null) :
    (∀ r ∈ (execDeleteWhere (postDB dg cs ss vs ti tih dr) "dag"
        (fun r => getVal r "dag_id" == Value.str d)).dagVersionRows,
      getVal r "dag_id" ≠ Value.str d) ∧
    (∀ r ∈ (execDeleteWhere (postDB dg cs ss vs ti tih dr) "dag"
        (fun r => getVal r "dag_id" == Value.str d)).dagCodeRows,
      getVal r "dag_version_id" ≠ Value.null →
      ∃ v ∈ (execDeleteWhere (postDB dg cs ss vs ti tih dr) "dag"
        (fun r => getVal r "dag_id" == Value.str d)).dagVersionRows,
        getVal v "id" = getVal r "dag_version_id") ∧
    (∀ r ∈ (execDeleteWhere (postDB dg cs ss vs ti tih dr) "dag"
        (fun r => getVal r "dag_id" == Value.str d)).serializedRows,
      getVal r "dag_version_id" ≠ Value.null →
      ∃ v ∈ (execDeleteWhere (postDB dg cs ss vs ti tih dr) "dag"
        (fun r => getVal r "dag_id" == Value.str d)).dagVersionRows,
        getVal v "id" = getVal r "dag_version_id") ∧
    (∀ r ∈ (execDeleteWhere (postDB dg cs ss vs ti tih dr) "dag"
        (fun r => getVal r "dag_id" == Value.str d)).tiRows,
      getVal r "dag_version_id" ≠ Value.null →
      ∃ v ∈ (execDeleteWhere (postDB dg cs ss vs ti tih dr) "dag"
        (fun r => getVal r "dag_id" == Value.str d)).dagVersionRows,
        getVal v "id" = getVal r "dag_version_id") ∧
    (∀ r ∈ (execDeleteWhere (postDB dg cs ss vs ti tih dr) "dag_version"
        (fun r => getVal r "id" == Value.str w)).dagCodeRows,
      getVal r "dag_version_id" ≠ Value.str w) ∧
    (∀ r ∈ (execDeleteWhere (postDB dg cs ss vs ti tih dr) "dag_version"
        (fun r => getVal r "id" == Value.str w)).serializedRows,
      getVal r "dag_version_id" ≠ Value.str w) ∧
    (∀ r ∈ (execDeleteWhere (postDB dg cs ss vs ti tih dr) "dag_version"
        (fun r => getVal r "id" == Value.str w)).tiRows,
      getVal r "dag_version_id" ≠ Value.str w) := by
  have htE : (execDeleteWhere (postDB dg cs ss vs ti tih dr) "dag"
      (fun r => getVal r "dag_id" == Value.str d)).tables = postTables := by
    rw [execDeleteWhere_tables]
    rfl
  have hfix := execDeleteWhere_fix (postDB dg cs ss vs ti tih dr) "dag"
    (fun r => getVal r "dag_id" == Value.str d)
  have hdRows : (execDeleteWhere (postDB dg cs ss vs ti tih dr) "dag"
      (fun r => getVal r "dag_id" == Value.str d)).dagRows
      = dg.filter (fun r => !(getVal r "dag_id" == Value.str d)) := by
    rw [execDeleteWhere_dagRows_post]
    · rfl
    · rw [mapRows_tables]
      rfl
  have hsubV : List.Sublist (execDeleteWhere (postDB dg cs ss vs ti tih dr) "dag"
      (fun r => getVal r "dag_id" == Value.str d)).dagVersionRows vs :=
    execDeleteWhere_sub_dagVersion (postDB dg cs ss vs ti tih dr) "dag"
      (fun r => getVal r "dag_id" == Value.str d)
  obtain ⟨hnd1, hnd2, hnd3⟩ := no_dangling_of_fix _ hfix htE
  have htE2 : (execDeleteWhere (postDB dg cs ss vs ti tih dr) "dag_version"
      (fun r => getVal r "id" == Value.str w)).tables = postTables := by
    rw [execDeleteWhere_tables]
    rfl
  have hfix2 := execDeleteWhere_fix (postDB dg cs ss vs ti tih dr) "dag_version"
    (fun r => getVal r "id" == Value.str w)
  have hsubV2 : List.Sublist (execDeleteWhere (postDB dg cs ss vs ti tih dr) "dag_version"
      (fun r => getVal r "id" == Value.str w)).dagVersionRows
      (vs.filter (fun r => !(getVal r "id" == Value.str w))) :=
    execDeleteWhere_sub_dagVersion (postDB dg cs ss vs ti tih dr) "dag_version"
      (fun r => getVal r "id" == Value.str w)
  obtain ⟨hnd4, hnd5, hnd6⟩ := no_dangling_of_fix _ hfix2 htE2
  refine ⟨?_, hnd1, hnd2, hnd3, ?_, ?_, ?_⟩
  · intro r hr heq
    have halive := fix_dagVersion_alive _ hfix r hr
    rcases rowAliveIn_single_cascade _ "dag_version" "dag_version_dag_id_fkey"
      "dag_id" "dag" "dag_id" dag_version_table
      (findTable_post_dagVersion _ htE) rfl r halive with hnull | ⟨v, hv, hveq⟩
    · exact hdv r (hsubV.subset hr) hnull
    · rw [rowsOf_dag, hdRows] at hv
      obtain ⟨hvmem, hvp⟩ := List.mem_filter.mp hv
      rw [hveq, heq] at hvp
      simp at hvp
  · intro r hr heq
    have hstr : getVal r "dag_version_id" ≠ Value.null := by
      rw [heq]
      exact fun hc => Value.noConfusion hc
    obtain ⟨v, hv, hveq⟩ := hnd4 r hr hstr
    have hv2 := hsubV2.subset hv
    obtain ⟨hvmem, hvp⟩ := List.mem_filter.mp hv2
    rw [hveq, heq] at hvp
    simp at hvp
  · intro r hr heq
    have hstr : getVal r "dag_version_id" ≠ Value.null := by
      rw [heq]
      exact fun hc => Value.noConfusion hc
    obtain ⟨v, hv, hveq⟩ := hnd5 r hr hstr
    have hv2 := hsubV2.subset hv
    obtain ⟨hvmem, hvp⟩ := List.mem_filter.mp hv2
    rw [hveq, heq] at hvp
    simp at hvp
  · intro r hr heq
    have hstr : getVal r "dag_version_id" ≠ Value.null := by
      rw [heq]
      exact fun hc => Value.noConfusion hc
    obtain ⟨v, hv, hveq⟩ := hnd6 r hr hstr
    have hv2 := hsubV2.subset hv
    obtain ⟨hvmem, hvp⟩ := List.mem_filter.mp hv2
    rw [hveq, heq] at hvp
    simp at hvp

/-- Witness for C6: in a concrete post-upgrade database with one definition
`a` and its version `v1`, the version row does not survive the deletion of
definition `a`. -/
theorem claim_C6_witness :
    ¬ ([("id", Value.str "v1"), ("dag_id", Value.str "a")] ∈
        (execDeleteWhere (postDB [[("dag_id", Value.str "a")]]
            [[("dag_version_id", Value.str "v1")]] [] 
            [[("id", Value.str "v1"), ("dag_id", Value.str "a")]] [] [] [])
          "dag" (fun r => getVal r "dag_id" == Value.str "a")).dagVersionRows) := by
  intro hmem
  exact (claim_C6_cascade_integrity [[("dag_id", Value.str "a")]]
    [[("dag_version_id", Value.str "v1")]] []
    [[("id", Value.str "v1"), ("dag_id", Value.str "a")]] [] [] [] "a" "v1"
    (by decide)).1 _ hmem (by decide)
